import Mathlib

set_option maxRecDepth 8192

/-!
Verification of the candidate-matching batch pipeline (A2Cby/recruiting).

This file is a shallow embedding of the pipeline's core functions:

* `extract_keywords_from_vacancy`  (src/core/openai_service.py, 35-125)
* `prepare_openai_batch_input`     (src/core/openai_service.py, 128-178)
* `process_openai_results`         (src/core/openai_service.py, 320-425)
* `monitor_and_process_batch_job`  (src/core/openai_service.py, 428-477)
* `save_results_to_file`           (src/utils/file_utils.py, 34-94)
* `fetch_candidates_from_db`       (src/core/db.py, 48-188)
* `match_candidates_batch_endpoint` (src/api/v1/endpoints/matching.py, 17-91)

Python dynamic values (results of `json.loads`) are modelled by `PyVal`;
`json.loads` itself is an external library function and is passed in as an
oracle `String → Option PyVal` (`Option.none` models `json.JSONDecodeError`).
Python exception flow is made explicit: exceptions that the per-record
handler of `process_openai_results` catches (`json.JSONDecodeError`,
`KeyError`, `IndexError`, `TypeError`, `ValueError`, which includes
pydantic's `ValidationError`) are `PyExc.caught`; `AttributeError`, which
that handler does not list, is `PyExc.uncaught` and only the function-level
`except Exception` sees it.
-/

/-- A Python/JSON dynamic value, as produced by `json.loads`. -/
inductive PyVal where
  | null
  | boolean (b : Bool)
  | num (q : ℚ)
  | str (s : String)
  | arr (elems : List PyVal)
  | obj (fields : List (String × PyVal))

/-- Python truthiness (`bool(v)`): `None`, `False`, `0`, `""`, `[]`, `{}` are falsy. -/
def pyTruthy : PyVal → Bool
  | PyVal.null => false
  | PyVal.boolean b => b
  | PyVal.num q => decide (q ≠ 0)
  | PyVal.str s => decide (s ≠ "")
  | PyVal.arr xs => !xs.isEmpty
  | PyVal.obj kvs => !kvs.isEmpty

/-- Lookup in a parsed JSON object.  Python's `json.loads` keeps the **last**
binding of a duplicated key, hence the lookup on the reversed field list. -/
def pyLookup (fields : List (String × PyVal)) (k : String) : Option PyVal :=
  (fields.reverse.find? (fun kv => decide (kv.fst = k))).map (fun kv => kv.snd)

/-- Exception classes relevant to the per-record handler of
`process_openai_results` (source lines 384-386): `caught` stands for the
tuple `(json.JSONDecodeError, KeyError, IndexError, TypeError, ValueError)`;
`uncaught` stands for `AttributeError`, which is not in that tuple and
propagates to the function-level handler. -/
inductive PyExc where
  | caught
  | uncaught
deriving DecidableEq

/-- Python `v.get(k)` (no default): on a dict, the value or `None`;
on any non-dict value, `AttributeError`. -/
def pyGet : PyVal → String → Except PyExc PyVal
  | PyVal.obj fields, k => Except.ok ((pyLookup fields k).getD PyVal.null)
  | _, _ => Except.error PyExc.uncaught

/-- Python `v.get(k, dflt)`: on a dict, the value or the default;
on any non-dict value, `AttributeError`. -/
def pyGetD : PyVal → String → PyVal → Except PyExc PyVal
  | PyVal.obj fields, k, dflt => Except.ok ((pyLookup fields k).getD dflt)
  | _, _, _ => Except.error PyExc.uncaught

/-! ### Python string primitives

Lean's own `String.replace`, `String.trim`, `String.toNat?` are
well-founded-recursive and do not reduce in the kernel, so the Python
string operations used by the pipeline are re-implemented structurally
over `String.data`. -/

/-- The whitespace characters stripped by Python's `str.strip()`
(space, tab, newline, carriage return, vertical tab, form feed). -/
def isSpaceCh (c : Char) : Bool :=
  decide (c.toNat = 32) || decide (c.toNat = 9) || decide (c.toNat = 10) ||
  decide (c.toNat = 13) || decide (c.toNat = 11) || decide (c.toNat = 12)

/-- Python `s.strip()`. -/
def pyStrip (s : String) : String :=
  ⟨((s.data.dropWhile isSpaceCh).reverse.dropWhile isSpaceCh).reverse⟩

/-- Python `s.split('\n')`: every newline separates segments and the empty
string splits to `[""]`. -/
def splitNlChars : List Char → List (List Char)
  | [] => [[]]
  | c :: cs =>
    if c = '\n' then [] :: splitNlChars cs
    else
      match splitNlChars cs with
      | [] => [[c]]
      | seg :: segs => (c :: seg) :: segs

/-- Python `s.split('\n')` on `String`. -/
def pySplitLines (s : String) : List String :=
  (splitNlChars s.data).map (fun cs => ⟨cs⟩)

/-- Fuelled core of Python `s.replace(pat, "")`: deletes every
non-overlapping occurrence of `pat`, scanning left to right.  The fuel is
instantiated with the length of the scanned list, which suffices because
each step consumes at least one character. -/
def replaceAux (pat : List Char) : ℕ → List Char → List Char
  | _, [] => []
  | 0, l => l
  | fuel + 1, c :: cs =>
    if pat.isPrefixOf (c :: cs) && !pat.isEmpty then
      replaceAux pat fuel ((c :: cs).drop pat.length)
    else
      c :: replaceAux pat fuel cs

/-- Python `s.replace(pat, "")` (all occurrences of `pat` deleted); this is
the only form of `str.replace` the pipeline uses. -/
def pyReplaceDel (s pat : String) : String :=
  ⟨replaceAux pat.data s.data.length s.data⟩

/-! ### Decimal rendering and parsing

`natToStr`/`intToStr` model Python's `str()`/f-string rendering of an `int`;
`pyInt?` models Python's `int()` constructor on a string (strip whitespace,
optional sign, then decimal digits). -/

/-- Fuelled decimal rendering of a natural number (fuel `n + 1` suffices). -/
def toDecAux : ℕ → ℕ → List Char
  | 0, _ => []
  | fuel + 1, n =>
    if n < 10 then [Nat.digitChar n]
    else toDecAux fuel (n / 10) ++ [Nat.digitChar (n % 10)]

/-- Python `str(n)` for a non-negative int. -/
def natToStr (n : ℕ) : String := ⟨toDecAux (n + 1) n⟩

/-- Python `str(i)` / f-string rendering of an int. -/
def intToStr (i : ℤ) : String :=
  if i < 0 then "-" ++ natToStr i.natAbs else natToStr i.natAbs

/-- Decimal digit test (`'0'` to `'9'`, i.e. code points 48 to 57). -/
def isDigitCh (c : Char) : Bool := decide (48 ≤ c.toNat) && decide (c.toNat ≤ 57)

/-- Value of a digit string (big-endian), assuming all characters are digits. -/
def decValue (cs : List Char) : ℕ :=
  cs.foldl (fun a c => a * 10 + (c.toNat - 48)) 0

/-- Parse a non-empty all-digit character list. -/
def parseDigits (cs : List Char) : Option ℕ :=
  if !cs.isEmpty && cs.all isDigitCh then some (decValue cs) else Option.none

/-- Sign handling of Python `int()`. -/
def pyIntCore : List Char → Option ℤ
  | [] => Option.none
  | c :: rest =>
    if c = '-' then (parseDigits rest).map (fun n => -(n : ℤ))
    else if c = '+' then (parseDigits rest).map (fun n => (n : ℤ))
    else (parseDigits (c :: rest)).map (fun n => (n : ℤ))

/-- Python `int(s)`: `some` the value, `Option.none` models `ValueError`. -/
def pyInt? (s : String) : Option ℤ := pyIntCore (pyStrip s).data

/-- The reconciler's inversion of the custom-id convention
(source line 364): `int(custom_id.replace("candidate_", ""))`. -/
def parse_custom_id (s : String) : Option ℤ :=
  pyInt? (pyReplaceDel s "candidate_")

section DecimalLemmas

theorem toDecAux_spec (n : ℕ) : ∀ fuel, n < fuel →
    toDecAux fuel n ≠ [] ∧ (∀ c ∈ toDecAux fuel n, isDigitCh c = true) ∧
      ∀ a : ℕ, (toDecAux fuel n).foldl (fun a c => a * 10 + (c.toNat - 48)) a =
        a * 10 ^ (toDecAux fuel n).length + n := by
  induction n using Nat.strong_induction_on with
  | _ n ih =>
    intro fuel hfuel
    match fuel with
    | 0 => omega
    | f + 1 =>
      by_cases hn : n < 10
      · have hd : toDecAux (f + 1) n = [Nat.digitChar n] := by
          simp [toDecAux, hn]
        rw [hd]
        refine ⟨by simp, ?_, ?_⟩
        · intro c hc
          simp at hc
          subst hc
          interval_cases n <;> decide
        · intro a
          have hval : (Nat.digitChar n).toNat - 48 = n := by
            interval_cases n <;> decide
          simp [hval]
      · have hd : toDecAux (f + 1) n = toDecAux f (n / 10) ++ [Nat.digitChar (n % 10)] := by
          simp [toDecAux, hn]
        have hdivlt : n / 10 < n := Nat.div_lt_self (by omega) (by omega)
        have hdivf : n / 10 < f := by omega
        obtain ⟨hne, hdig, hfold⟩ := ih (n / 10) hdivlt f hdivf
        rw [hd]
        refine ⟨by simp, ?_, ?_⟩
        · intro c hc
          rw [List.mem_append] at hc
          rcases hc with hc | hc
          · exact hdig c hc
          · simp at hc
            subst hc
            have hm : n % 10 < 10 := Nat.mod_lt _ (by omega)
            set d := n % 10 with hdm
            interval_cases d <;> decide
        · intro a
          rw [List.foldl_append, hfold a]
          have hm : (Nat.digitChar (n % 10)).toNat - 48 = n % 10 := by
            have hm10 : n % 10 < 10 := Nat.mod_lt _ (by omega)
            set d := n % 10 with hdm
            interval_cases d <;> decide
          have hlen : (toDecAux f (n / 10) ++ [Nat.digitChar (n % 10)]).length =
              (toDecAux f (n / 10)).length + 1 := by simp
          rw [hlen]
          simp only [List.foldl_cons, List.foldl_nil, hm]
          have hdm : 10 * (n / 10) + n % 10 = n := Nat.div_add_mod n 10
          ring_nf
          omega

theorem natToStr_digits (n : ℕ) :
    (natToStr n).data ≠ [] ∧ (∀ c ∈ (natToStr n).data, isDigitCh c = true) ∧
      decValue (natToStr n).data = n := by
  obtain ⟨h1, h2, h3⟩ := toDecAux_spec n (n + 1) (Nat.lt_succ_self n)
  refine ⟨h1, h2, ?_⟩
  have := h3 0
  simpa [decValue, natToStr] using this

theorem digit_not_space {c : Char} (h : isDigitCh c = true) : isSpaceCh c = false := by
  simp only [isDigitCh, Bool.and_eq_true, decide_eq_true_eq] at h
  simp only [isSpaceCh, Bool.or_eq_false_iff, decide_eq_false_iff_not]
  omega

theorem dropWhile_of_all_false {p : Char → Bool} {l : List Char}
    (h : ∀ c ∈ l, p c = false) : l.dropWhile p = l := by
  cases l with
  | nil => rfl
  | cons c cs =>
    rw [List.dropWhile_cons]
    simp [h c (by simp)]

theorem pyStrip_of_no_space {s : String}
    (h : ∀ c ∈ s.data, isSpaceCh c = false) : pyStrip s = s := by
  unfold pyStrip
  rw [dropWhile_of_all_false h]
  rw [dropWhile_of_all_false (fun c hc => h c (List.mem_reverse.mp hc))]
  simp

theorem digit_ne_sign {c : Char} (h : isDigitCh c = true) : c ≠ '-' ∧ c ≠ '+' := by
  simp only [isDigitCh, Bool.and_eq_true, decide_eq_true_eq] at h
  constructor <;> (rintro rfl; revert h; decide)

theorem pyInt?_natToStr (n : ℕ) : pyInt? (natToStr n) = some (n : ℤ) := by
  obtain ⟨h1, h2, h3⟩ := natToStr_digits n
  unfold pyInt?
  rw [pyStrip_of_no_space (fun c hc => digit_not_space (h2 c hc))]
  match hd : (natToStr n).data with
  | [] => exact absurd hd h1
  | c :: rest =>
    have hcdig : isDigitCh c = true := h2 c (by rw [hd]; simp)
    obtain ⟨hm, hp⟩ := digit_ne_sign hcdig
    simp only [pyIntCore]
    rw [if_neg hm, if_neg hp]
    have hall : (c :: rest).all isDigitCh = true := by
      rw [List.all_eq_true]
      intro x hx
      exact h2 x (by rw [hd]; exact hx)
    rw [parseDigits, if_pos (by simp [hall])]
    rw [← hd, h3]
    simp

theorem data_append (a b : String) : (a ++ b).data = a.data ++ b.data := rfl

theorem pyInt?_intToStr (i : ℤ) : pyInt? (intToStr i) = some i := by
  unfold intToStr
  by_cases hneg : i < 0
  · rw [if_pos hneg]
    obtain ⟨h1, h2, h3⟩ := natToStr_digits i.natAbs
    unfold pyInt?
    have hdata : ("-" ++ natToStr i.natAbs).data = '-' :: (natToStr i.natAbs).data := by
      rw [data_append]; rfl
    have hnos : ∀ c ∈ ("-" ++ natToStr i.natAbs).data, isSpaceCh c = false := by
      intro c hc
      rw [hdata, List.mem_cons] at hc
      rcases hc with hc | hc
      · subst hc; decide
      · exact digit_not_space (h2 c hc)
    rw [pyStrip_of_no_space hnos, hdata]
    simp only [pyIntCore, if_true]
    have hall : (natToStr i.natAbs).data.all isDigitCh = true := by
      rw [List.all_eq_true]; exact fun x hx => h2 x hx
    rw [parseDigits, if_pos (by simp [hall, h1])]
    rw [h3]
    have habs : -((i.natAbs : ℕ) : ℤ) = i := by omega
    simp [habs]
    rw [abs_of_neg hneg, neg_neg]
  · rw [if_neg hneg]
    rw [pyInt?_natToStr]
    congr 1
    omega

theorem replaceAux_no_head (p0 : Char) (pr : List Char) :
    ∀ (l : List Char) (fuel : ℕ), l.length ≤ fuel → (∀ c ∈ l, c ≠ p0) →
      replaceAux (p0 :: pr) fuel l = l := by
  intro l
  induction l with
  | nil => intro fuel _ _; cases fuel <;> rfl
  | cons c cs ih =>
    intro fuel hlen hne
    match fuel with
    | 0 => simp at hlen
    | f + 1 =>
      have hc : c ≠ p0 := hne c (by simp)
      have hnp : (p0 :: pr).isPrefixOf (c :: cs) = false := by
        rw [Bool.eq_false_iff]
        intro hcontra
        rw [List.isPrefixOf_iff_prefix, List.cons_prefix_cons] at hcontra
        exact hc hcontra.1.symm
      unfold replaceAux
      rw [hnp]
      have hcond : (false && !(p0 :: pr).isEmpty) = false := rfl
      rw [hcond, if_neg (by simp)]
      rw [ih f (by simpa using hlen) (fun x hx => hne x (List.mem_cons_of_mem _ hx))]

theorem replaceAux_strip_head (p0 : Char) (pr : List Char) (l : List Char) (f : ℕ) :
    replaceAux (p0 :: pr) (f + 1) ((p0 :: pr) ++ l) = replaceAux (p0 :: pr) f l := by
  have hpre : (p0 :: pr).isPrefixOf ((p0 :: pr) ++ l) = true := by
    rw [List.isPrefixOf_iff_prefix]
    exact List.prefix_append _ _
  have hc : ((p0 :: pr).isPrefixOf (p0 :: (pr ++ l)) && !(p0 :: pr).isEmpty) = true := by
    have h : p0 :: (pr ++ l) = (p0 :: pr) ++ l := rfl
    rw [h, hpre]
    rfl
  have hdrop : (p0 :: (pr ++ l)).drop (p0 :: pr).length = l := by
    have h : p0 :: (pr ++ l) = (p0 :: pr) ++ l := rfl
    rw [h, List.drop_left]
  have hsplit : (p0 :: pr) ++ l = p0 :: (pr ++ l) := rfl
  rw [hsplit, replaceAux, hc, if_pos rfl, hdrop]

theorem custom_id_roundtrip (i : ℤ) :
    parse_custom_id ("candidate_" ++ intToStr i) = some i := by
  have hchars : ∀ c ∈ (intToStr i).data, c ≠ 'c' := by
    intro c hc
    unfold intToStr at hc
    by_cases hneg : i < 0
    · rw [if_pos hneg] at hc
      have hdata : ("-" ++ natToStr i.natAbs).data = '-' :: (natToStr i.natAbs).data := by
        rw [data_append]; rfl
      rw [hdata, List.mem_cons] at hc
      rcases hc with hc | hc
      · subst hc; decide
      · obtain ⟨_, h2, _⟩ := natToStr_digits i.natAbs
        have hdig := h2 c hc
        simp only [isDigitCh, Bool.and_eq_true, decide_eq_true_eq] at hdig
        rintro rfl
        revert hdig
        decide
    · rw [if_neg hneg] at hc
      obtain ⟨_, h2, _⟩ := natToStr_digits i.natAbs
      have hdig := h2 c hc
      simp only [isDigitCh, Bool.and_eq_true, decide_eq_true_eq] at hdig
      rintro rfl
      revert hdig
      decide
  unfold parse_custom_id pyReplaceDel
  have hdata : ("candidate_" ++ intToStr i).data = "candidate_".data ++ (intToStr i).data := by
    rw [data_append]
  have hcand : "candidate_".data = 'c' :: "andidate_".data := rfl
  have hlen : ("candidate_" ++ intToStr i).data.length = ((intToStr i).data.length + 9) + 1 := by
    rw [hdata, List.length_append]
    have h10 : "candidate_".data.length = 10 := rfl
    rw [h10]
    omega
  rw [hlen, hdata, hcand]
  rw [replaceAux_strip_head 'c' "andidate_".data (intToStr i).data ((intToStr i).data.length + 9)]
  rw [replaceAux_no_head 'c' "andidate_".data (intToStr i).data _ (by omega) hchars]
  have : (⟨(intToStr i).data⟩ : String) = intToStr i := rfl
  rw [this]
  exact pyInt?_intToStr i

theorem intToStr_injective : Function.Injective intToStr := by
  intro a b hab
  have ha := pyInt?_intToStr a
  have hb := pyInt?_intToStr b
  rw [hab, hb] at ha
  exact Option.some_injective _ ha |>.symm

end DecimalLemmas

/-! ### Candidate data model (src/schemas/candidate.py)

`CandidateScore`'s dynamically injected DB-enrichment fields
(`person_data`, `education_data`, `position_data`, set by `setattr` from
`fetch_candidate_db_details`) are not modelled: they are `Optional` extras
that `save_results_to_file` never reads, and the enrichment loop
(source lines 393-410) does not change any of the fields below. -/

/-- `CandidateData` (pydantic model): one locally stored candidate row. -/
structure CandidateData where
  id : ℤ
  text : String
  profileURL : Option String
  fullName : Option String
deriving DecidableEq

/-- `CandidateScore` (pydantic model): one parsed evaluation joined with
display fields. -/
structure CandidateScore where
  candidate_id : ℤ
  score : ℚ
  reasoning : String
  profileURL : Option String
  fullName : Option String
deriving DecidableEq

/-- `candidate_details_map = {c.id: c for c in initial_candidates}` followed
by `.get(candidate_id)`: a Python dict comprehension keeps the last
candidate with a given id. -/
def candLookup (cands : List CandidateData) (i : ℤ) : Option CandidateData :=
  cands.reverse.find? (fun c => decide (c.id = i))

/-- Construction of the `CandidateScore` for one parsed line
(source lines 369-380): display fields come from the initial-candidate map,
with `None`/`"N/A"` placeholders when the id is unknown. -/
def mkCandidateScore (cands : List CandidateData) (i : ℤ) (q : ℚ) (r : String) :
    CandidateScore :=
  match candLookup cands i with
  | some d => ⟨i, q, r, d.profileURL, d.fullName⟩
  | Option.none => ⟨i, q, r, Option.none, some "N/A"⟩

/-- Per-line parsing of `process_openai_results` (source lines 334-386),
up to but excluding the display-field join.  The traversal mirrors the
source statement by statement; every arm that yields
`Except.error PyExc.uncaught` is a `.get`/`.replace` call on a value of the
wrong type, i.e. a Python `AttributeError`, which the per-line handler
(`json.JSONDecodeError, KeyError, IndexError, TypeError, ValueError`)
does **not** catch.  The final validation models pydantic's
`CandidateScore(...)` constructor: `score` must be a JSON number
(numeric-string coercion is not modelled) and `reasoning` a string;
a `ValidationError` is a `ValueError` and is caught per line. -/
def processLineCore (decode : String → Option PyVal) (line : String) :
    Except PyExc (Option (ℤ × ℚ × String)) :=
  match decode line with
  | Option.none => Except.error PyExc.caught
  | some result_item =>
    match result_item with
    | PyVal.obj rfields =>
      let custom_id := (pyLookup rfields "custom_id").getD PyVal.null
      match (pyLookup rfields "response").getD (PyVal.obj []) with
      | PyVal.obj respfs =>
        let response_body := (pyLookup respfs "body").getD (PyVal.obj [])
        if pyTruthy ((pyLookup rfields "error").getD PyVal.null) then
          Except.ok Option.none
        else
          match response_body with
          | PyVal.obj bodyfs =>
            match (pyLookup bodyfs "choices").getD PyVal.null with
            | PyVal.arr (c0 :: _) =>
              match c0 with
              | PyVal.obj c0fs =>
                match (pyLookup c0fs "message").getD PyVal.null with
                | PyVal.obj mfields =>
                  if mfields.isEmpty then Except.ok Option.none
                  else
                    match (pyLookup mfields "content").getD PyVal.null with
                    | PyVal.str s =>
                      if s = "" then Except.ok Option.none
                      else if pyTruthy custom_id then
                        match custom_id with
                        | PyVal.str cid =>
                          match parse_custom_id cid with
                          | Option.none => Except.error PyExc.caught
                          | some cidNum =>
                            match decode s with
                            | Option.none => Except.error PyExc.caught
                            | some (PyVal.obj sfields) =>
                              match (pyLookup sfields "score").getD (PyVal.num 0),
                                    (pyLookup sfields "reasoning").getD PyVal.null with
                              | PyVal.num q, PyVal.str r =>
                                Except.ok (some (cidNum, q, r))
                              | _, _ => Except.error PyExc.caught
                            | some _ => Except.error PyExc.uncaught
                        | _ => Except.error PyExc.uncaught
                      else Except.ok Option.none
                    | _ => Except.ok Option.none
                | _ => Except.ok Option.none
              | _ => Except.error PyExc.uncaught
            | _ => Except.ok Option.none
          | _ => Except.error PyExc.uncaught
      | _ => Except.error PyExc.uncaught
    | _ => Except.error PyExc.uncaught

/-- One full line of `process_openai_results`: parse, then join display
fields from the initial candidates. -/
def processLine (decode : String → Option PyVal) (cands : List CandidateData)
    (line : String) : Except PyExc (Option CandidateScore) :=
  Except.map (fun o => o.map (fun t : ℤ × ℚ × String => mkCandidateScore cands t.1 t.2.1 t.2.2))
    (processLineCore decode line)

/-- The line loop of `process_openai_results` (source lines 334-386):
empty lines are skipped; a per-line exception from the caught class skips
the line; an uncaught exception (`AttributeError`) aborts the whole run via
the function-level `except Exception` handler (source lines 412-414), which
discards every accumulated score. -/
def processLines (decode : String → Option PyVal) (cands : List CandidateData) :
    List String → Except Unit (List CandidateScore)
  | [] => Except.ok []
  | line :: rest =>
    if line = "" then processLines decode cands rest
    else
      match processLine decode cands line with
      | Except.error PyExc.uncaught => Except.error ()
      | Except.error PyExc.caught => processLines decode cands rest
      | Except.ok Option.none => processLines decode cands rest
      | Except.ok (some sc) => Except.map (fun l => sc :: l) (processLines decode cands rest)

/-- `process_openai_results(results_content, initial_candidates, vacancy_id)`
(source lines 320-425).  The return value is the list of scores handed to
`save_results_to_file`; `Option.none` means nothing is saved (either the
function-level handler fired, or no score was produced).  The function never
raises to its caller: every exception path ends in `return`. -/
def process_openai_results (decode : String → Option PyVal)
    (initial_candidates : List CandidateData) (results_content : String) :
    Option (List CandidateScore) :=
  match processLines decode initial_candidates (pySplitLines (pyStrip results_content)) with
  | Except.error _ => Option.none
  | Except.ok scores => if scores.isEmpty then Option.none else some scores

/-! ### Batch request builder (`prepare_openai_batch_input`, source 128-178) -/

/-- Part of the rubric system prompt before the interpolated vacancy text
(source lines 131-141). -/
def systemPromptPre : String :=
  "\n    You are an expert HR assistant. You will be given a vacancy description and a candidate's profile.\n    Evaluate how well the candidate matches the vacancy.\n    Provide a score between 0 and 10, where 10 is a perfect match.\n    Also provide a brief reasoning for your score.\n    Respond ONLY in JSON format with keys \"score\" (float) and \"reasoning\" (string).\n\n    Vacancy Description:\n    ---\n    "

/-- Part of the rubric system prompt after the interpolated vacancy text
(source lines 141-153). -/
def systemPromptPost : String :=
  "\n    ---\n    \n    Pay special attention to:\n\n- **Residency clues**: check if their listed employers or schools match the location field.  \n- **Remote flexibility**: a different city for a remote role is fine—don’t penalize it.  \n- **Education details**: verify the names of universities or institutions;  \n- **Online courses**: include entries like Coursera/MITx but label them as “certificate/course.”  \n- **Timeline consistency**: flag unusually short stints or overlapping dates in their work history.  \n- **Self-employment vs. Founder**: treat “self-employed” as valid if they list concrete projects; treat “Founder” without any proof as questionable.  \n- **Concurrent roles**: identify full-time overlaps longer than six months.  \n- **Russian language**: add scores for Russian language skills (eg education or job in russian speaking countries) in the candidate's profile, we usually need it for our clients.\n    "

/-- Per-candidate user prompt, before the interpolated candidate id
(source line 156). -/
def userContentPre : String := "\n        Candidate Profile (ID: "

/-- Per-candidate user prompt, between the candidate id and the profile text
(source lines 156-158). -/
def userContentMid : String := "):\n        ---\n        "

/-- Per-candidate user prompt after the profile text (source lines 158-162). -/
def userContentPost : String :=
  "\n        ---\n        Evaluate this candidate against the vacancy description provided in the system prompt.\n        Respond ONLY in JSON format with keys \"score\" (float) and \"reasoning\" (string).\n        "

/-- The `body` object of one batch request (source lines 167-176).
`model` is `os.getenv("OPENAI_MODEL")` (`Option.none` when the variable is
unset); the Python float `0.2` is modelled as the rational `1/5`. -/
structure BatchRequestBody where
  model : Option String
  system_content : String
  user_content : String
  response_format : String
  max_tokens : ℕ
  temperature : ℚ
deriving DecidableEq

/-- One entry of the batch payload (source lines 163-177). -/
structure BatchRequest where
  custom_id : String
  method : String
  url : String
  body : BatchRequestBody
deriving DecidableEq

/-- The loop body of `prepare_openai_batch_input` for one candidate
(source lines 154-177). -/
def mkBatchRequest (envModel : Option String) (vacancy_text : String)
    (c : CandidateData) : BatchRequest :=
  { custom_id := "candidate_" ++ intToStr c.id,
    method := "POST",
    url := "/v1/chat/completions",
    body := { model := envModel,
              system_content := systemPromptPre ++ vacancy_text ++ systemPromptPost,
              user_content :=
                userContentPre ++ intToStr c.id ++ userContentMid ++ c.text ++ userContentPost,
              response_format := "json_object",
              max_tokens := 500,
              temperature := 1/5 } }

/-- `prepare_openai_batch_input(vacancy_text, candidates)`
(source lines 128-178): appends one request per candidate, in order. -/
def prepare_openai_batch_input (envModel : Option String) (vacancy_text : String)
    (candidates : List CandidateData) : List BatchRequest :=
  candidates.map (mkBatchRequest envModel vacancy_text)

/-! ### Criteria extractor (`extract_keywords_from_vacancy`, source 35-125) -/

/-- The `Country` enumeration of `schemas/openai.py` (the `LocationCode`
values the structured-output schema admits). -/
inductive Country where
  | CYPRUS | FRANCE | BELGIUM | SPAIN | ENGLAND | GERMANY | ITALY
  | UNITED_STATES | CANADA | AUSTRALIA | INDIA | CHINA | JAPAN | BRAZIL
  | POLAND | NETHERLANDS | UKRAINE | SWITZERLAND | SWEDEN | ALBANIA | RUSSIA
  | UNITED_ARAB_EMIRATES | ANDORRA | AUSTRIA | BELARUS | BULGARIA | CROATIA
  | CZECH_REPUBLIC | DENMARK | ESTONIA | FINLAND | GEORGIA | GREECE | HUNGARY
  | TURKEY | ROMANIA | PORTUGAL | NORWAY | MOLDOVA | LITHUANIA | LUXEMBOURG
  | SERBIA | SLOVAKIA | BOSNIA_AND_HERZEGOVINA | LATVIA | LIECHTENSTEIN
  | ISRAEL | KAZAKHSTAN | AZERBAIJAN | UZBEKISTAN | TAJIKISTAN
deriving DecidableEq

/-- A successfully parsed `KeywordResponse` (schemas/openai.py, 118-137). -/
structure KeywordResponseParsed where
  keywords : List String
  locations : List Country
  russian_speaking : Bool
  explanation : String

/-- Models `country_code_map.get(location, "")` at source line 121: the dict
defined at source lines 68-119 is keyed by plain strings such as
`"FRANCE"`, while `location` is a `Country` enum member, so the lookup
always misses and yields the default `""`. -/
def locCode (_c : Country) : String := ""

/-- The single-quote character (code point 39). -/
def sqChar : Char := Char.ofNat 39

/-- Python `str()` of a list of strings, e.g. `str(["a"])` ⇒ `['a']`. -/
def pyStrOfStrList (xs : List String) : String :=
  "[" ++ String.intercalate ", "
    (xs.map (fun x => String.singleton sqChar ++ x ++ String.singleton sqChar)) ++ "]"

/-- `extract_keywords_from_vacancy(vacancy_text)` (source lines 35-125).
The blocking structured-output call (lines 40-64) is the `oracle`:
`Except.error ()` models any exception inside the `try` block (including
the call on an uninitialized client), `Except.ok` a parsed
`KeywordResponse`.  The result is the returned Python tuple as a 2-element
list: on success `(keywords, locations)` where `locations` is the
*string* `str([...]).replace("'","").replace("[","").replace("]","")`
(line 121); on any failure the literal `([], [""])` (line 125).  The
function never raises: the `except Exception` handler covers the whole
body. -/
def extract_keywords_from_vacancy (oracle : String → Except Unit KeywordResponseParsed)
    (vacancy_text : String) : List PyVal :=
  match oracle vacancy_text with
  | Except.error _ => [PyVal.arr [], PyVal.arr [PyVal.str ""]]
  | Except.ok parsed =>
    [PyVal.arr (parsed.keywords.map PyVal.str),
     PyVal.str (pyReplaceDel (pyReplaceDel (pyReplaceDel
       (pyStrOfStrList (parsed.locations.map locCode)) (String.singleton sqChar)) "[") "]")]

/-! ### Poll loop (`monitor_and_process_batch_job`, source 428-477) -/

/-- What one `client.batches.retrieve` call reports. -/
structure BatchJobView where
  status : String
  output_file_id : Option String
deriving DecidableEq

/-- Outcome of one iteration's interaction with the external service:
either a job view was retrieved (with `download` the outcome of the inner
result-file download of source lines 447-455 — `some content` on success,
`Option.none` when that `try` block raised), or `batches.retrieve` raised a
`RateLimitError`, an `APIError`, or any other exception (source 467-475). -/
inductive PollEvent where
  | retrieved (job : BatchJobView) (download : Option String)
  | rateLimitError
  | apiError
  | unexpectedError

/-- Observable actions of the poll loop: one `poll` per `while` iteration,
`sleepSec n` for `await asyncio.sleep(n)`, and `reconcile content` for the
single call site of `process_openai_results` (source line 453); a persisted
artifact can only be produced inside `reconcile`. -/
inductive MonitorAction where
  | poll
  | sleepSec (n : ℕ)
  | reconcile (content : String)
deriving DecidableEq

/-- The terminal statuses of the loop: `"completed"` stops after the
download attempt, `"failed"/"cancelled"/"expired"` stop immediately
(source lines 443-462). -/
def isTerminalStatus (s : String) : Bool :=
  decide (s = "completed") || decide (s = "failed") ||
  decide (s = "cancelled") || decide (s = "expired")

/-- Whether a poll event ends the loop. -/
def eventTerminal : PollEvent → Bool
  | PollEvent.retrieved job _ => isTerminalStatus job.status
  | _ => false

/-- `monitor_and_process_batch_job` (source lines 428-477) as a trace over
a finite stream of poll outcomes.  `timeout_seconds = 300` (declared as a
"5 min timeout" at line 433) is only ever used as the sleep interval at
line 465 — no overall deadline is enforced, so the loop runs until a
terminal status arrives (an exhausted event list simply ends the trace).
Any non-terminal status falls through to the 300 s sleep; the three error
classes wait 60 s, 60 s and 120 s respectively (lines 467-475). -/
def monitor_and_process_batch_job : List PollEvent → List MonitorAction
  | [] => []
  | PollEvent.retrieved job dl :: es =>
    if job.status = "completed" then
      MonitorAction.poll ::
        (match job.output_file_id, dl with
         | some _, some content => [MonitorAction.reconcile content]
         | _, _ => [])
    else if job.status = "failed" ∨ job.status = "cancelled" ∨ job.status = "expired" then
      [MonitorAction.poll]
    else
      MonitorAction.poll :: MonitorAction.sleepSec 300 ::
        monitor_and_process_batch_job es
  | PollEvent.rateLimitError :: es =>
    MonitorAction.poll :: MonitorAction.sleepSec 60 ::
      monitor_and_process_batch_job es
  | PollEvent.apiError :: es =>
    MonitorAction.poll :: MonitorAction.sleepSec 60 ::
      monitor_and_process_batch_job es
  | PollEvent.unexpectedError :: es =>
    MonitorAction.poll :: MonitorAction.sleepSec 120 ::
      monitor_and_process_batch_job es

/-- Number of `reconcile` actions in a trace. -/
def countReconcile (tr : List MonitorAction) : ℕ :=
  tr.countP (fun a => match a with | MonitorAction.reconcile _ => true | _ => false)

/-! ### Result sink (`save_results_to_file`, src/utils/file_utils.py 34-94) -/

/-- One entry of the persisted artifact's `candidates` array
(source lines 58-68; the nested `info` object is flattened into
`score`/`reasoning`). -/
structure OutputCandidate where
  name : String
  sourceId : String
  sourceUrl : String
  sourceType : String
  vacancyId : ℤ
  score : ℚ
  reasoning : String
deriving DecidableEq

/-- Python `x or dflt` for an optional string: `None` and `""` are falsy. -/
def pyOrStr (v : Option String) (dflt : String) : String :=
  match v with
  | some s => if s = "" then dflt else s
  | Option.none => dflt

/-- Formatting of one score into an output candidate (source lines 54-69).
`score_item.reasoning or ""` is the identity on a non-optional string
(`""` maps to `""`), so `reasoning` is kept as is. -/
def formatCandidate (vacancy_id : ℤ) (s : CandidateScore) : OutputCandidate :=
  { name := pyOrStr s.fullName "N/A",
    sourceId := intToStr s.candidate_id,
    sourceUrl := pyOrStr s.profileURL "",
    sourceType := "linkedin",
    vacancyId := vacancy_id,
    score := s.score,
    reasoning := s.reasoning }

/-- `save_results_to_file(scores, vacancy_id)` (source lines 34-94): empty
input saves nothing (line 45-47); otherwise format, stable-sort by score
descending (`sorted(..., reverse=True)`, lines 72-74), truncate to the top
50 (line 77) and persist `{"candidates": top_50}`.  The return value is the
persisted `candidates` array (`Option.none` = nothing persisted); the
best-effort file write and HRBase forwarding are I/O outside the model. -/
def save_results_to_file (scores : List CandidateScore) (vacancy_id : ℤ) :
    Option (List OutputCandidate) :=
  if scores.isEmpty then Option.none
  else
    some (((scores.map (formatCandidate vacancy_id)).mergeSort
      (fun a b => decide (b.score ≤ a.score))).take 50)

/-! ### Candidate fetch (`fetch_candidates_from_db`, src/core/db.py 48-188) -/

/-- One row of the person/education/position join produced by the SQL query
at source lines 50-97 (`combined_text` is the aggregated
education/position text; SQL `NULL` is `Option.none`). -/
structure DbRow where
  id : ℤ
  fullName : Option String
  summary : Option String
  skills : Option String
  location : Option String
  country : Option String
  city : Option String
  profileURL : Option String
  combined_text : String

/-- Case-folded characters of a string (for `ILIKE`). -/
def lowerChars (s : String) : List Char := s.data.map Char.toLower

/-- Substring test used to model `col ILIKE '%pat%'`. -/
def containsAux (nd : List Char) : List Char → Bool
  | [] => nd.isEmpty
  | c :: cs => nd.isPrefixOf (c :: cs) || containsAux nd cs

/-- SQL `col ILIKE '%pat%'`: case-insensitive containment; `NULL` never
matches. -/
def ilikeContains (field : Option String) (needle : String) : Bool :=
  match field with
  | Option.none => false
  | some s => containsAux (lowerChars needle) (lowerChars s)

/-- One keyword's condition `(p.skills ILIKE %s OR p.summary ILIKE %s)`
(source line 113). -/
def rowMatchesKeyword (r : DbRow) (kw : String) : Bool :=
  ilikeContains r.skills kw || ilikeContains r.summary kw

/-- The dynamically built `WHERE` clause (source lines 100-129): the
keyword disjunction is added only when `keywords` is truthy, the
location disjunction only when `location` is truthy. -/
def rowPred (keywords : List String) (location : Option String) (r : DbRow) : Bool :=
  (keywords.isEmpty || keywords.any (rowMatchesKeyword r)) &&
  (match location with
   | Option.none => true
   | some loc =>
     if loc = "" then true
     else ilikeContains r.location loc || ilikeContains r.country loc ||
       ilikeContains r.city loc)

/-- Python `f"{v}"` of an optional DB value (`None` renders as `"None"`). -/
def optShow (o : Option String) : String := o.getD "None"

/-- Row formatting of `fetch_candidates_from_db` (source lines 152-170):
the denormalized `text` is built before the `fillna` calls, then
`profileURL` is NULL-filled with `''` and `fullName` with `'N/A'`. -/
def rowToCandidate (r : DbRow) : CandidateData :=
  { id := r.id,
    text := "fullName: " ++ optShow r.fullName ++ "\n" ++
            "summary: " ++ optShow r.summary ++ "\n" ++
            "skills: " ++ optShow r.skills ++ "\n" ++
            "location: " ++ optShow r.location ++ "\n" ++
            "country: " ++ optShow r.country ++ "\n" ++
            "city: " ++ optShow r.city ++ "\n" ++
            "combined_text: " ++ r.combined_text,
    profileURL := some (r.profileURL.getD ""),
    fullName := some (r.fullName.getD "N/A") }

/-- `fetch_candidates_from_db(keywords, location)` (source lines 48-188)
over the table contents `rows`: the executed query filters by the dynamic
`WHERE` clause and carries `LIMIT 800` (source line 130), and each
returned row is formatted into a `CandidateData`. -/
def fetch_candidates_from_db (rows : List DbRow) (keywords : List String)
    (location : Option String) : List CandidateData :=
  ((rows.filter (rowPred keywords location)).take 800).map rowToCandidate

/-! ### Submission endpoint (`match_candidates_batch_endpoint`,
src/api/v1/endpoints/matching.py 17-91)

The request schema (`schemas/request.py`) declares only `vacancy_text`.
External collaborators are oracles in `EndpointEnv`.  The
`fetch_candidates_from_linkedin` call (matching.py lines 41-44) is wrapped
in its own `try/except Exception` and its result is discarded, so it is
omitted from the model; `fetch_candidates_from_db` can itself raise
`HTTPException` 503/500 (db.py lines 132-176), modelled by the error side
of `dbResult`. -/

/-- `VacancyMatchRequest` (schemas/request.py). -/
structure VacancyMatchRequest where
  vacancy_text : String

/-- Environment of one request: client configuration and the external
collaborators reached from the endpoint body. -/
structure EndpointEnv where
  clientsConfigured : Bool
  chatOracle : String → Except Unit KeywordResponseParsed
  envModel : Option String
  dbResult : Except (ℕ × String) (List CandidateData)
  uploadOracle : List BatchRequest → Option String
  createOracle : String → Option String
  statusOracle : Option String

/-- Exceptions escaping the endpoint's `try` body: an `HTTPException`
(re-raised as is, line 87-88) or any other Python exception (converted to
a 500 with the original message, lines 89-91). -/
inductive EndpointExc where
  | http (code : ℕ) (detail : String)
  | py (msg : String)

/-- The endpoint's HTTP outcome. -/
inductive EndpointResult where
  | accepted (batch_id : String) (status : String)
  | httpError (code : ℕ) (detail : String)
deriving DecidableEq

/-- Python tuple unpacking `a, b, c = e` of a tuple of arbitrary arity,
with CPython's `ValueError` messages. -/
def pyUnpack3 (vs : List PyVal) : Except EndpointExc (PyVal × PyVal × PyVal) :=
  match vs with
  | [a, b, c] => Except.ok (a, b, c)
  | _ =>
    Except.error (EndpointExc.py
      (if vs.length < 3 then
        "not enough values to unpack (expected 3, got " ++ natToStr vs.length ++ ")"
      else "too many values to unpack (expected 3)"))

/-- The `try` body of the endpoint (matching.py lines 29-85).  Line 32 is
`keywords, location, russian_speaking = extract_keywords_from_vacancy(...)`,
i.e. a 3-way unpack of the extractor's return value. -/
def matchBody (env : EndpointEnv) (req : VacancyMatchRequest) :
    Except EndpointExc (String × String) :=
  match pyUnpack3 (extract_keywords_from_vacancy env.chatOracle req.vacancy_text) with
  | Except.error e => Except.error e
  | Except.ok _klr =>
    match env.dbResult with
    | Except.error cd => Except.error (EndpointExc.http cd.1 cd.2)
    | Except.ok candidates =>
      if candidates.isEmpty then
        Except.error (EndpointExc.http 404 "No candidates found matching the specified criteria.")
      else
        match env.uploadOracle
            (prepare_openai_batch_input env.envModel req.vacancy_text candidates) with
        | Option.none =>
          Except.error (EndpointExc.http 500 "Failed to upload batch input file to OpenAI.")
        | some input_file_id =>
          match env.createOracle input_file_id with
          | Option.none =>
            Except.error (EndpointExc.http 500 "Failed to create OpenAI batch job.")
          | some batch_job_id =>
            Except.ok (batch_job_id, env.statusOracle.getD "pending")

/-- `match_candidates_batch_endpoint` (matching.py lines 17-91): 503 when a
client is unconfigured (lines 26-27); otherwise run the body, return 202
(`accepted`) on success, re-raise `HTTPException`s, and convert any other
exception to a 500 carrying the original message (lines 87-91). -/
def match_candidates_batch_endpoint (env : EndpointEnv) (req : VacancyMatchRequest) :
    EndpointResult :=
  if env.clientsConfigured then
    match matchBody env req with
    | Except.ok r => EndpointResult.accepted r.1 r.2
    | Except.error (EndpointExc.http code detail) => EndpointResult.httpError code detail
    | Except.error (EndpointExc.py msg) =>
      EndpointResult.httpError 500 ("An internal server error occurred: " ++ msg)
  else
    EndpointResult.httpError 503 "OpenAI client (async or sync) not configured."

/-! ### Concrete fixtures

A small `json.loads` oracle covering the concrete result lines used by
counterexamples and witnesses; its values are exactly what Python's
`json.loads` returns on those strings. -/

/-- The embedded evaluation JSON of the well-formed example line. -/
def exGoodContent : String := "\x7b\"score\": 8, \"reasoning\": \"ok\"\x7d"

/-- A fully well-formed batch result line for candidate 7. -/
def exGoodLine : String :=
  "\x7b\"custom_id\": \"candidate_7\", \"response\": \x7b\"body\": \x7b\"choices\": [\x7b\"message\": \x7b\"content\": \"\x7b\\\"score\\\": 8, \\\"reasoning\\\": \\\"ok\\\"\x7d\"\x7d\x7d]\x7d\x7d\x7d"

/-- `json.loads exGoodLine`. -/
def exGoodVal : PyVal :=
  PyVal.obj [("custom_id", PyVal.str "candidate_7"),
             ("response", PyVal.obj [("body", PyVal.obj [("choices",
                PyVal.arr [PyVal.obj [("message", PyVal.obj [("content",
                  PyVal.str exGoodContent)])]])])])]

/-- `json.loads` on the concrete strings above: `"[]"` parses to the empty
JSON array, `exGoodLine` to `exGoodVal`, `exGoodContent` to the score
object; everything else is treated as undecodable. -/
def exDecode : String → Option PyVal := fun s =>
  if s = "[]" then some (PyVal.arr [])
  else if s = exGoodLine then some exGoodVal
  else if s = exGoodContent then
    some (PyVal.obj [("score", PyVal.num 8), ("reasoning", PyVal.str "ok")])
  else Option.none

/-- A batch submission containing only candidate 1 (so id 7 is unknown). -/
def exCands : List CandidateData := [⟨1, "profile text", Option.none, Option.none⟩]

/-! ## Claim theorems -/

/-- Claim C6: for every candidate list with pairwise-distinct integer ids,
the custom ids produced by `prepare_openai_batch_input` are pairwise
distinct, and reversing the custom-id convention as the reconciler does
(`int(custom_id.replace("candidate_", ""))`, i.e. `parse_custom_id`)
recovers each candidate's id exactly, request by request in order. -/
theorem c6_custom_id_roundtrip (envModel : Option String) (vacancy_text : String)
    (cands : List CandidateData) (h : (cands.map (fun c => c.id)).Nodup) :
    ((prepare_openai_batch_input envModel vacancy_text cands).map
      (fun r => r.custom_id)).Nodup ∧
    List.Forall₂ (fun (r : BatchRequest) (c : CandidateData) =>
        parse_custom_id r.custom_id = some c.id)
      (prepare_openai_batch_input envModel vacancy_text cands) cands := by
  constructor
  · have hinj : Function.Injective (fun i : ℤ => "candidate_" ++ intToStr i) := by
      intro a b hab
      have ha := custom_id_roundtrip a
      have hb := custom_id_roundtrip b
      rw [show "candidate_" ++ intToStr a = "candidate_" ++ intToStr b from hab, hb] at ha
      exact (Option.some_injective _ ha).symm
    have hmap : (prepare_openai_batch_input envModel vacancy_text cands).map
        (fun r => r.custom_id) =
        (cands.map (fun c => c.id)).map (fun i => "candidate_" ++ intToStr i) := by
      simp [prepare_openai_batch_input, mkBatchRequest, List.map_map]
    rw [hmap]
    exact List.Nodup.map hinj h
  · clear h
    unfold prepare_openai_batch_input
    induction cands with
    | nil => exact List.Forall₂.nil
    | cons c cs ih =>
      exact List.Forall₂.cons (custom_id_roundtrip c.id) ih

/-- Claim C6 witness: two concrete candidates with distinct ids. -/
theorem c6_custom_id_roundtrip_witness :
    ((prepare_openai_batch_input Option.none "Vacancy"
        [⟨1, "a", Option.none, Option.none⟩, ⟨2, "b", Option.none, Option.none⟩]).map
      (fun r => r.custom_id)).Nodup ∧
    List.Forall₂ (fun (r : BatchRequest) (c : CandidateData) =>
        parse_custom_id r.custom_id = some c.id)
      (prepare_openai_batch_input Option.none "Vacancy"
        [⟨1, "a", Option.none, Option.none⟩, ⟨2, "b", Option.none, Option.none⟩])
      [⟨1, "a", Option.none, Option.none⟩, ⟨2, "b", Option.none, Option.none⟩] :=
  c6_custom_id_roundtrip Option.none "Vacancy" _ (by decide)

/-- Claim C7: the batch request builder is deterministic and total over
its input list: identical vacancy text and candidate list give identical
custom ids, the number of produced requests equals the number of input
candidates, and the i-th request is exactly the one built from the i-th
candidate (output ordering follows input ordering). -/
theorem c7_builder_deterministic_total (envModel : Option String) (vacancy_text : String)
    (cands : List CandidateData) :
    (∀ v₂ cands₂, vacancy_text = v₂ → cands = cands₂ →
      (prepare_openai_batch_input envModel vacancy_text cands).map (fun r => r.custom_id) =
      (prepare_openai_batch_input envModel v₂ cands₂).map (fun r => r.custom_id)) ∧
    (prepare_openai_batch_input envModel vacancy_text cands).length = cands.length ∧
    List.Forall₂ (fun (r : BatchRequest) (c : CandidateData) =>
        r = mkBatchRequest envModel vacancy_text c)
      (prepare_openai_batch_input envModel vacancy_text cands) cands := by
  refine ⟨?_, ?_, ?_⟩
  · intro v₂ cands₂ hv hc
    subst hv
    subst hc
    rfl
  · simp [prepare_openai_batch_input]
  · unfold prepare_openai_batch_input
    induction cands with
    | nil => exact List.Forall₂.nil
    | cons c cs ih => exact List.Forall₂.cons rfl ih

/-- Claim C7 witness: the builder applied to one concrete candidate list. -/
theorem c7_builder_deterministic_total_witness :
    (prepare_openai_batch_input Option.none "Vacancy" exCands).map (fun r => r.custom_id) =
      (prepare_openai_batch_input Option.none "Vacancy" exCands).map (fun r => r.custom_id) ∧
    (prepare_openai_batch_input Option.none "Vacancy" exCands).length = exCands.length :=
  ⟨(c7_builder_deterministic_total Option.none "Vacancy" exCands).1 "Vacancy" exCands rfl rfl,
   (c7_builder_deterministic_total Option.none "Vacancy" exCands).2.1⟩

/-- Claim C10: for every table contents and keyword/location filter, the
candidate fetch returns at most 800 records (the executed query carries
`LIMIT 800`), and hence the batch built from the fetched candidates
contains at most 800 per-candidate requests. -/
theorem c10_fetch_bounded_800 (rows : List DbRow) (keywords : List String)
    (location : Option String) (envModel : Option String) (vacancy_text : String) :
    (fetch_candidates_from_db rows keywords location).length ≤ 800 ∧
    (prepare_openai_batch_input envModel vacancy_text
      (fetch_candidates_from_db rows keywords location)).length ≤ 800 := by
  have hlen : (fetch_candidates_from_db rows keywords location).length ≤ 800 := by
    unfold fetch_candidates_from_db
    rw [List.length_map, List.length_take]
    omega
  refine ⟨hlen, ?_⟩
  unfold prepare_openai_batch_input
  rw [List.length_map]
  exact hlen

/-- Claim C9 counterexample: a rate-limit error and a generic API error
trigger the *same* 60-second wait before the next poll (source lines
467-472), so the generic-API wait is not strictly shorter than the
rate-limit wait: the poll loop produces identical traces for the two error
classes. -/
theorem c9_equal_waits_counterexample :
    monitor_and_process_batch_job [PollEvent.rateLimitError] =
      [MonitorAction.poll, MonitorAction.sleepSec 60] ∧
    monitor_and_process_batch_job [PollEvent.apiError] =
      [MonitorAction.poll, MonitorAction.sleepSec 60] ∧
    monitor_and_process_batch_job [PollEvent.rateLimitError] =
      monitor_and_process_batch_job [PollEvent.apiError] :=
  ⟨rfl, rfl, rfl⟩

/-- Claim C9 (amended): in the poll loop's error handling, a rate-limit
error waits 60 s before the next poll, a generic API error waits the
*same* 60 s (not strictly less), and a completely unexpected error waits
120 s — strictly the longest of the three. -/
theorem c9_wait_tiers_amended (es : List PollEvent) :
    monitor_and_process_batch_job (PollEvent.rateLimitError :: es) =
      MonitorAction.poll :: MonitorAction.sleepSec 60 ::
        monitor_and_process_batch_job es ∧
    monitor_and_process_batch_job (PollEvent.apiError :: es) =
      MonitorAction.poll :: MonitorAction.sleepSec 60 ::
        monitor_and_process_batch_job es ∧
    monitor_and_process_batch_job (PollEvent.unexpectedError :: es) =
      MonitorAction.poll :: MonitorAction.sleepSec 120 ::
        monitor_and_process_batch_job es ∧
    (60 : ℕ) < 120 :=
  ⟨rfl, rfl, rfl, by omega⟩

/-- Claim C8 counterexample: on an internal failure the extractor returns
`([], [""])` (source line 125) — the locations component is a one-element
list containing the empty string, not an empty list, and the returned
tuple has no language-requirement component at all. -/
theorem c8_failure_locations_counterexample :
    extract_keywords_from_vacancy (fun _ => Except.error ()) "Senior Python Developer" =
      [PyVal.arr [], PyVal.arr [PyVal.str ""]] ∧
    PyVal.arr [PyVal.str ""] ≠ PyVal.arr [] ∧
    (extract_keywords_from_vacancy (fun _ => Except.error ()) "Senior Python Developer").length
      = 2 := by
  refine ⟨rfl, ?_, rfl⟩
  intro hcontra
  injection hcontra with h
  exact absurd h (by simp)

/-- Claim C8 (amended): the criteria extractor never raises to its caller
(the whole body sits under `except Exception`, modelled by the totality of
`extract_keywords_from_vacancy`); on any internal failure it returns a
2-tuple whose keyword component is the empty list and whose locations
component is `[""]` — a one-element list holding the empty string, not an
empty list — and no language-requirement flag is part of the return
value. -/
theorem c8_failure_value_amended (oracle : String → Except Unit KeywordResponseParsed)
    (vacancy_text : String) (h : oracle vacancy_text = Except.error ()) :
    extract_keywords_from_vacancy oracle vacancy_text =
      [PyVal.arr [], PyVal.arr [PyVal.str ""]] ∧
    (extract_keywords_from_vacancy oracle vacancy_text).length = 2 := by
  unfold extract_keywords_from_vacancy
  rw [h]
  exact ⟨rfl, rfl⟩

/-- Claim C8 witness. -/
theorem c8_failure_value_amended_witness :
    extract_keywords_from_vacancy (fun _ => Except.error ()) "any text" =
      [PyVal.arr [], PyVal.arr [PyVal.str ""]] ∧
    (extract_keywords_from_vacancy (fun _ => Except.error ()) "any text").length = 2 :=
  c8_failure_value_amended (fun _ => Except.error ()) "any text" rfl

/-- Claim C1: whenever the OpenAI clients are configured, the submission
endpoint hits the three-way unpack
`keywords, location, russian_speaking = extract_keywords_from_vacancy(...)`
(matching.py line 32) on the extractor's 2-tuple return value, raising
`ValueError: not enough values to unpack (expected 3, got 2)` inside the
`try` body, which the generic handler converts to HTTP 500 — regardless of
whether the chat call, candidate fetch, upload and job creation would all
succeed.  The endpoint can therefore never return the 202 `accepted`
result. -/
theorem c1_endpoint_always_500 (env : EndpointEnv) (req : VacancyMatchRequest)
    (h : env.clientsConfigured = true) :
    match_candidates_batch_endpoint env req =
      EndpointResult.httpError 500
        "An internal server error occurred: not enough values to unpack (expected 3, got 2)" := by
  have hex : ∃ a b, extract_keywords_from_vacancy env.chatOracle req.vacancy_text = [a, b] := by
    unfold extract_keywords_from_vacancy
    cases env.chatOracle req.vacancy_text with
    | error e => exact ⟨_, _, rfl⟩
    | ok parsed => exact ⟨_, _, rfl⟩
  obtain ⟨a, b, hab⟩ := hex
  unfold match_candidates_batch_endpoint
  rw [h]
  unfold matchBody
  rw [hab]
  rfl

/-- Claim C1 witness: a concrete fully-healthy environment (chat oracle
succeeds, candidates exist, upload and creation succeed) still yields the
500 conversion. -/
theorem c1_endpoint_always_500_witness :
    match_candidates_batch_endpoint
      { clientsConfigured := true,
        chatOracle := fun _ => Except.ok ⟨["python"], [Country.GERMANY], true, "ok"⟩,
        envModel := some "gpt-4.1-nano",
        dbResult := Except.ok exCands,
        uploadOracle := fun _ => some "file-abc",
        createOracle := fun _ => some "batch-abc",
        statusOracle := some "validating" }
      ⟨"Senior Python Developer"⟩ =
      EndpointResult.httpError 500
        "An internal server error occurred: not enough values to unpack (expected 3, got 2)" :=
  c1_endpoint_always_500 _ _ rfl

/-- The comparator of `sorted(output_candidates, key=..., reverse=True)`:
descending by score. -/
theorem save_le_trans : ∀ a b c : OutputCandidate,
    (decide (b.score ≤ a.score)) = true → (decide (c.score ≤ b.score)) = true →
    (decide (c.score ≤ a.score)) = true := by
  intro a b c hab hbc
  simp only [decide_eq_true_eq] at *
  exact le_trans hbc hab

theorem save_le_total : ∀ a b : OutputCandidate,
    ((decide (b.score ≤ a.score)) || (decide (a.score ≤ b.score))) = true := by
  intro a b
  rcases le_total b.score a.score with h | h <;> simp [h]

/-- Claim C5: for every non-empty list of candidate evaluations handed to
the result sink, the persisted artifact's `candidates` array is sorted by
score descending and contains at most 50 entries, and every entry is the
formatted image of one of the input evaluations; in particular, given 60
evaluations with pairwise-distinct scores, the output has exactly 50
entries, strictly descending by score. -/
theorem c5_save_sorted_capped (scores : List CandidateScore) (vid : ℤ)
    (h : scores ≠ []) :
    ∃ out, save_results_to_file scores vid = some out ∧
      out.Pairwise (fun a b => b.score ≤ a.score) ∧
      out.length ≤ 50 ∧
      (∀ oc ∈ out, oc ∈ scores.map (formatCandidate vid)) ∧
      (scores.length = 60 → (scores.map (fun s => s.score)).Nodup →
        out.length = 50 ∧ out.Pairwise (fun a b => b.score < a.score)) := by
  have hne : scores.isEmpty = false := by
    cases scores with
    | nil => exact absurd rfl h
    | cons a l => rfl
  have hsave : save_results_to_file scores vid =
      some (((scores.map (formatCandidate vid)).mergeSort
        (fun a b => decide (b.score ≤ a.score))).take 50) := by
    unfold save_results_to_file
    rw [hne]
    rfl
  refine ⟨_, hsave, ?_, ?_, ?_, ?_⟩
  · have hsorted := List.sorted_mergeSort save_le_trans save_le_total
      (scores.map (formatCandidate vid))
    have hprop : ((scores.map (formatCandidate vid)).mergeSort
        (fun a b => decide (b.score ≤ a.score))).Pairwise
        (fun a b => b.score ≤ a.score) :=
      hsorted.imp (fun hab => by simpa using hab)
    exact List.Pairwise.sublist (List.take_sublist _ _) hprop
  · exact List.length_take_le _ _
  · intro oc hoc
    have hmem : oc ∈ (scores.map (formatCandidate vid)).mergeSort
        (fun a b => decide (b.score ≤ a.score)) :=
      (List.take_sublist _ _).subset hoc
    exact (List.mergeSort_perm _ _).subset hmem
  · intro h60 hnd
    have hlenm : ((scores.map (formatCandidate vid)).mergeSort
        (fun a b => decide (b.score ≤ a.score))).length = 60 := by
      rw [List.length_mergeSort, List.length_map, h60]
    constructor
    · rw [List.length_take, hlenm]
      omega
    · have hndf : ((scores.map (formatCandidate vid)).map
          (fun oc => oc.score)).Nodup := by
        rw [List.map_map]
        exact hnd
      have hperm : (((scores.map (formatCandidate vid)).mergeSort
          (fun a b => decide (b.score ≤ a.score))).map (fun oc => oc.score)).Perm
          ((scores.map (formatCandidate vid)).map (fun oc => oc.score)) :=
        (List.mergeSort_perm _ _).map _
      have hnds : (((scores.map (formatCandidate vid)).mergeSort
          (fun a b => decide (b.score ≤ a.score))).map (fun oc => oc.score)).Nodup :=
        hperm.nodup_iff.mpr hndf
      have hndt : ((((scores.map (formatCandidate vid)).mergeSort
          (fun a b => decide (b.score ≤ a.score))).take 50).map
          (fun oc => oc.score)).Nodup :=
        ((List.take_sublist _ _).map _).nodup hnds
      have hpne : (((scores.map (formatCandidate vid)).mergeSort
          (fun a b => decide (b.score ≤ a.score))).take 50).Pairwise
          (fun a b => a.score ≠ b.score) := by
        rw [List.Nodup, List.pairwise_map] at hndt
        exact hndt
      have hple : (((scores.map (formatCandidate vid)).mergeSort
          (fun a b => decide (b.score ≤ a.score))).take 50).Pairwise
          (fun a b => b.score ≤ a.score) := by
        have hsorted := List.sorted_mergeSort save_le_trans save_le_total
          (scores.map (formatCandidate vid))
        exact List.Pairwise.sublist (List.take_sublist _ _)
          (hsorted.imp (fun hab => by simpa using hab))
      exact (hple.and hpne).imp
        (fun hab => lt_of_le_of_ne hab.1 (fun e => hab.2 e.symm))

/-- Claim C5 witness: a concrete singleton evaluation list. -/
theorem c5_save_sorted_capped_witness :
    ∃ out, save_results_to_file [⟨1, 5, "r", Option.none, Option.none⟩] 1 = some out ∧
      out.Pairwise (fun a b => b.score ≤ a.score) ∧
      out.length ≤ 50 ∧
      (∀ oc ∈ out, oc ∈ [(⟨1, 5, "r", Option.none, Option.none⟩ : CandidateScore)].map
        (formatCandidate 1)) ∧
      (([(⟨1, 5, "r", Option.none, Option.none⟩ : CandidateScore)] : List CandidateScore).length = 60 →
        (([(⟨1, 5, "r", Option.none, Option.none⟩ : CandidateScore)] : List CandidateScore).map
          (fun s => s.score)).Nodup →
        out.length = 50 ∧ out.Pairwise (fun a b => b.score < a.score)) :=
  c5_save_sorted_capped [⟨1, 5, "r", Option.none, Option.none⟩] 1 (by decide)

/-! ### Lemmas about the reconciler -/

theorem mkCandidateScore_candidate_id (cands : List CandidateData) (i : ℤ) (q : ℚ)
    (r : String) : (mkCandidateScore cands i q r).candidate_id = i := by
  unfold mkCandidateScore
  cases candLookup cands i <;> rfl

theorem mkCandidateScore_unknown (cands : List CandidateData) (i : ℤ) (q : ℚ)
    (r : String) (h : candLookup cands i = Option.none) :
    mkCandidateScore cands i q r = ⟨i, q, r, Option.none, some "N/A"⟩ := by
  unfold mkCandidateScore
  rw [h]

theorem candLookup_eq_none (cands : List CandidateData) (i : ℤ)
    (h : ∀ c ∈ cands, c.id ≠ i) : candLookup cands i = Option.none := by
  unfold candLookup
  rw [List.find?_eq_none]
  intro x hx
  simp only [decide_eq_true_eq]
  exact h x (List.mem_reverse.mp hx)

theorem processLine_fields (decode : String → Option PyVal) (cands : List CandidateData)
    (line : String) (sc : CandidateScore)
    (h : processLine decode cands line = Except.ok (some sc)) :
    ∃ i q r, processLineCore decode line = Except.ok (some (i, q, r)) ∧
      sc = mkCandidateScore cands i q r := by
  unfold processLine at h
  cases hcore : processLineCore decode line with
  | error e => rw [hcore] at h; simp [Except.map] at h
  | ok o =>
    rw [hcore] at h
    cases o with
    | none => simp [Except.map] at h
    | some t =>
      simp [Except.map] at h
      exact ⟨t.1, t.2.1, t.2.2, rfl, h.symm⟩

theorem processLine_core_ok_none {decode : String → Option PyVal} {line : String}
    (cands : List CandidateData)
    (h : processLineCore decode line = Except.ok Option.none) :
    processLine decode cands line = Except.ok Option.none := by
  unfold processLine
  rw [h]
  rfl

theorem processLine_core_error {decode : String → Option PyVal} {line : String}
    {e : PyExc} (cands : List CandidateData)
    (h : processLineCore decode line = Except.error e) :
    processLine decode cands line = Except.error e := by
  unfold processLine
  rw [h]
  rfl

theorem processLine_core_ok_some {decode : String → Option PyVal} {line : String}
    {i : ℤ} {q : ℚ} {r : String} (cands : List CandidateData)
    (h : processLineCore decode line = Except.ok (some (i, q, r))) :
    processLine decode cands line = Except.ok (some (mkCandidateScore cands i q r)) := by
  unfold processLine
  rw [h]
  rfl

theorem processLines_cons_skip {decode : String → Option PyVal}
    {cands : List CandidateData} {line : String} (rest : List String)
    (hne : line ≠ "")
    (h : processLine decode cands line = Except.ok Option.none ∨
      processLine decode cands line = Except.error PyExc.caught) :
    processLines decode cands (line :: rest) = processLines decode cands rest := by
  simp only [processLines]
  rw [if_neg hne]
  rcases h with h | h <;> rw [h]

theorem processLines_cons_some {decode : String → Option PyVal}
    {cands : List CandidateData} {line : String} {sc : CandidateScore}
    (rest : List String) (hne : line ≠ "")
    (h : processLine decode cands line = Except.ok (some sc)) :
    processLines decode cands (line :: rest) =
      Except.map (fun l => sc :: l) (processLines decode cands rest) := by
  simp only [processLines]
  rw [if_neg hne, h]

theorem processLines_cons_abort {decode : String → Option PyVal}
    {cands : List CandidateData} {line : String} (rest : List String)
    (hne : line ≠ "")
    (h : processLine decode cands line = Except.error PyExc.uncaught) :
    processLines decode cands (line :: rest) = Except.error () := by
  simp only [processLines]
  rw [if_neg hne, h]

/-- The canonical well-formed batch result line for candidate `i`
(the result wire format: `response.body.choices[0].message.content`
holding the embedded evaluation JSON string). -/
def mkResultLineVal (i : ℤ) (content : String) : PyVal :=
  PyVal.obj [("custom_id", PyVal.str ("candidate_" ++ intToStr i)),
             ("response", PyVal.obj [("body", PyVal.obj [("choices",
                PyVal.arr [PyVal.obj [("message", PyVal.obj [("content",
                  PyVal.str content)])]])])])]

theorem candidate_custom_id_ne_empty (i : ℤ) : ("candidate_" ++ intToStr i) ≠ "" := by
  intro hcon
  have hd : ("candidate_" ++ intToStr i).data = "".data := by rw [hcon]
  rw [data_append] at hd
  have hcand : "candidate_".data = 'c' :: "andidate_".data := rfl
  rw [hcand] at hd
  simp at hd

theorem processLineCore_nonobject (decode : String → Option PyVal) (line : String)
    (v : PyVal) (hdec : decode line = some v)
    (hno : ∀ fields, v ≠ PyVal.obj fields) :
    processLineCore decode line = Except.error PyExc.uncaught := by
  unfold processLineCore
  rw [hdec]
  cases v with
  | obj fields => exact absurd rfl (hno fields)
  | null => rfl
  | boolean b => rfl
  | num q => rfl
  | str s => rfl
  | arr xs => rfl

theorem processLineCore_missing_response (decode : String → Option PyVal) (line : String)
    (fields : List (String × PyVal))
    (hdec : decode line = some (PyVal.obj fields))
    (hresp : pyLookup fields "response" = Option.none)
    (herr : pyLookup fields "error" = Option.none) :
    processLineCore decode line = Except.ok Option.none := by
  simp only [pyLookup] at hresp herr
  unfold processLineCore
  rw [hdec]
  simp [pyLookup, pyTruthy, hresp, herr]

/-- A result line whose envelope is intact down to `message`, with `msgfs`
the message object's fields. -/
def mkResultLineMsg (i : ℤ) (msgfs : List (String × PyVal)) : PyVal :=
  PyVal.obj [("custom_id", PyVal.str ("candidate_" ++ intToStr i)),
             ("response", PyVal.obj [("body", PyVal.obj [("choices",
                PyVal.arr [PyVal.obj [("message", PyVal.obj msgfs)]])])])]

theorem processLineCore_missing_content (decode : String → Option PyVal) (line : String)
    (i : ℤ) (msgfs : List (String × PyVal))
    (hdec : decode line = some (mkResultLineMsg i msgfs))
    (hne : msgfs.isEmpty = false)
    (hcont : pyLookup msgfs "content" = Option.none) :
    processLineCore decode line = Except.ok Option.none := by
  have hgetD : (pyLookup msgfs "content").getD PyVal.null = PyVal.null := by
    rw [hcont]
    rfl
  simp only [pyLookup] at hgetD
  unfold processLineCore
  rw [hdec]
  simp [mkResultLineMsg, pyLookup, pyTruthy, hne, hgetD]

theorem processLineCore_score_default (decode : String → Option PyVal) (line : String)
    (i : ℤ) (s : String) (sd : List (String × PyVal)) (r : String)
    (hdec : decode line = some (mkResultLineVal i s)) (hs : s ≠ "")
    (hsd : decode s = some (PyVal.obj sd))
    (hscore : pyLookup sd "score" = Option.none)
    (hreason : pyLookup sd "reasoning" = some (PyVal.str r)) :
    processLineCore decode line = Except.ok (some (i, 0, r)) := by
  simp only [pyLookup] at hscore hreason
  unfold processLineCore
  rw [hdec]
  simp [mkResultLineVal, pyLookup, pyTruthy, hs, candidate_custom_id_ne_empty i,
    custom_id_roundtrip i, hsd, hscore, hreason]

/-- Claim C2 counterexample: with a batch submission containing only
candidate 1, a result line for the unknown candidate id 7 is **not**
dropped — the final scored list handed to the sink contains an entry for
id 7 (with placeholder display fields), contradicting the invariant that
evaluations referencing unknown ids are dropped. -/
theorem c2_unknown_id_kept_counterexample :
    process_openai_results exDecode exCands exGoodLine =
      some [⟨7, 8, "ok", Option.none, some "N/A"⟩] ∧
    ∀ c ∈ exCands, c.id ≠ 7 :=
  ⟨by decide, by decide⟩

/-- Claim C2 (amended): a `CandidateEvaluation` whose `candidate_id` does
not correspond to any `CandidateRecord` of the same batch submission is
**kept**, not dropped (and the run does not fatal-error on it): it is
emitted into the scored list with placeholder display fields —
`profileURL = None` and `fullName = "N/A"` — while the remaining lines are
processed unchanged. -/
theorem c2_unknown_id_placeholder (decode : String → Option PyVal)
    (cands : List CandidateData) (line : String) (rest : List String)
    (sc : CandidateScore) (hne : line ≠ "")
    (h1 : processLine decode cands line = Except.ok (some sc))
    (h2 : ∀ c ∈ cands, c.id ≠ sc.candidate_id) :
    processLines decode cands (line :: rest) =
      Except.map (fun l => sc :: l) (processLines decode cands rest) ∧
    sc.profileURL = Option.none ∧ sc.fullName = some "N/A" := by
  obtain ⟨i, q, r, hcore, hsc⟩ := processLine_fields decode cands line sc h1
  have hid : sc.candidate_id = i := by
    rw [hsc]
    exact mkCandidateScore_candidate_id cands i q r
  have hlook : candLookup cands i = Option.none := by
    apply candLookup_eq_none
    intro c hc
    have := h2 c hc
    rw [hid] at this
    exact this
  have hfields : sc = ⟨i, q, r, Option.none, some "N/A"⟩ :=
    hsc.trans (mkCandidateScore_unknown cands i q r hlook)
  refine ⟨processLines_cons_some rest hne h1, ?_, ?_⟩ <;> rw [hfields]

/-- Claim C2 witness: the concrete unknown-id line from the counterexample
run through the amended statement. -/
theorem c2_unknown_id_placeholder_witness :
    processLines exDecode exCands (exGoodLine :: []) =
      Except.map (fun l => (⟨7, 8, "ok", Option.none, some "N/A"⟩ : CandidateScore) :: l)
        (processLines exDecode exCands []) ∧
    (⟨7, 8, "ok", Option.none, some "N/A"⟩ : CandidateScore).profileURL = Option.none ∧
    (⟨7, 8, "ok", Option.none, some "N/A"⟩ : CandidateScore).fullName = some "N/A" :=
  c2_unknown_id_placeholder exDecode exCands exGoodLine []
    ⟨7, 8, "ok", Option.none, some "N/A"⟩ (by decide) rfl (by decide)

/-- Claim C4 counterexample: the line `[]` is valid JSON but not an object;
`result_item.get("custom_id")` on the parsed list raises `AttributeError`,
which the per-line handler (`json.JSONDecodeError, KeyError, IndexError,
TypeError, ValueError`) does not catch, so the function-level handler
aborts the whole run: with input `"[]\n" ++ exGoodLine` nothing is saved,
although the same well-formed line alone produces a score — a single bad
line *does* abort processing of the rest. -/
theorem c4_nonobject_line_aborts_counterexample :
    process_openai_results exDecode exCands ("[]" ++ "\n" ++ exGoodLine) = Option.none ∧
    process_openai_results exDecode exCands exGoodLine =
      some [⟨7, 8, "ok", Option.none, some "N/A"⟩] :=
  ⟨by decide, by decide⟩

/-- Claim C4 (amended): result reconciliation never raises to its caller
(the function-level handler is part of `process_openai_results`), and for
the enumerated cases it isolates failures per line: a line that is not
valid JSON is skipped; a JSON-object line missing the response envelope is
skipped; a line whose message object lacks the `content` field is skipped;
a well-formed line whose embedded `score` field is absent is kept
with the default score 0; and any line whose per-line outcome is a skip or
a caught exception leaves the processing of the rest unchanged.  However —
unlike what the claim states — a line that decodes to a non-object JSON
value raises `AttributeError`, which only the function-level handler
catches: the run aborts and every line's result is discarded. -/
theorem c4_per_line_isolation_amended (decode : String → Option PyVal)
    (cands : List CandidateData) (line : String) (rest : List String)
    (hne : line ≠ "") :
    (decode line = Option.none →
      processLines decode cands (line :: rest) = processLines decode cands rest) ∧
    (∀ fields, decode line = some (PyVal.obj fields) →
      pyLookup fields "response" = Option.none →
      pyLookup fields "error" = Option.none →
      processLines decode cands (line :: rest) = processLines decode cands rest) ∧
    (∀ (i : ℤ) (msgfs : List (String × PyVal)),
      decode line = some (mkResultLineMsg i msgfs) → msgfs.isEmpty = false →
      pyLookup msgfs "content" = Option.none →
      processLines decode cands (line :: rest) = processLines decode cands rest) ∧
    (∀ (i : ℤ) (s : String) (sd : List (String × PyVal)) (r : String),
      decode line = some (mkResultLineVal i s) → s ≠ "" →
      decode s = some (PyVal.obj sd) →
      pyLookup sd "score" = Option.none →
      pyLookup sd "reasoning" = some (PyVal.str r) →
      processLine decode cands line =
        Except.ok (some (mkCandidateScore cands i 0 r))) ∧
    ((processLine decode cands line = Except.ok Option.none ∨
      processLine decode cands line = Except.error PyExc.caught) →
      processLines decode cands (line :: rest) = processLines decode cands rest) ∧
    (∀ v, decode line = some v → (∀ fields, v ≠ PyVal.obj fields) →
      processLines decode cands (line :: rest) = Except.error ()) := by
  refine ⟨?_, ?_, ?_, ?_, ?_, ?_⟩
  · intro hdec
    apply processLines_cons_skip rest hne
    right
    apply processLine_core_error cands
    unfold processLineCore
    rw [hdec]
  · intro fields hdec hresp herr
    apply processLines_cons_skip rest hne
    left
    exact processLine_core_ok_none cands
      (processLineCore_missing_response decode line fields hdec hresp herr)
  · intro i msgfs hdec hmne hcont
    apply processLines_cons_skip rest hne
    left
    exact processLine_core_ok_none cands
      (processLineCore_missing_content decode line i msgfs hdec hmne hcont)
  · intro i s sd r hdec hs hsd hscore hreason
    exact processLine_core_ok_some cands
      (processLineCore_score_default decode line i s sd r hdec hs hsd hscore hreason)
  · intro h
    exact processLines_cons_skip rest hne h
  · intro v hdec hno
    apply processLines_cons_abort rest hne
    exact processLine_core_error cands (processLineCore_nonobject decode line v hdec hno)

/-- Claim C4 witness: the abort conjunct applied to the concrete
non-object line `[]` followed by a well-formed line. -/
theorem c4_per_line_isolation_amended_witness :
    processLines exDecode exCands ("[]" :: [exGoodLine]) = Except.error () :=
  (c4_per_line_isolation_amended exDecode exCands "[]" [exGoodLine]
      (by decide)).2.2.2.2.2 (PyVal.arr []) rfl
    (fun _ hcontra => PyVal.noConfusion hcontra)

/-! ### Lemmas about the poll loop -/

/-- The actions a run of non-terminal events contributes before the loop
reaches the rest of the stream. -/
def nonTerminalActs : List PollEvent → List MonitorAction
  | [] => []
  | PollEvent.retrieved _ _ :: es =>
    MonitorAction.poll :: MonitorAction.sleepSec 300 :: nonTerminalActs es
  | PollEvent.rateLimitError :: es =>
    MonitorAction.poll :: MonitorAction.sleepSec 60 :: nonTerminalActs es
  | PollEvent.apiError :: es =>
    MonitorAction.poll :: MonitorAction.sleepSec 60 :: nonTerminalActs es
  | PollEvent.unexpectedError :: es =>
    MonitorAction.poll :: MonitorAction.sleepSec 120 :: nonTerminalActs es

theorem countReconcile_nonTerminalActs (pre : List PollEvent) :
    countReconcile (nonTerminalActs pre) = 0 := by
  induction pre with
  | nil => rfl
  | cons e es ih =>
    cases e <;> simpa [nonTerminalActs, countReconcile, List.countP_cons] using ih

theorem monitor_cons_retrieved (job : BatchJobView) (dl : Option String)
    (es : List PollEvent) :
    monitor_and_process_batch_job (PollEvent.retrieved job dl :: es) =
      if job.status = "completed" then
        MonitorAction.poll ::
          (match job.output_file_id, dl with
           | some _, some content => [MonitorAction.reconcile content]
           | _, _ => [])
      else if job.status = "failed" ∨ job.status = "cancelled" ∨
          job.status = "expired" then
        [MonitorAction.poll]
      else
        MonitorAction.poll :: MonitorAction.sleepSec 300 ::
          monitor_and_process_batch_job es := rfl

theorem monitor_append_nonterminal (rest : List PollEvent) :
    ∀ pre : List PollEvent, (∀ e ∈ pre, eventTerminal e = false) →
      monitor_and_process_batch_job (pre ++ rest) =
        nonTerminalActs pre ++ monitor_and_process_batch_job rest := by
  intro pre
  induction pre with
  | nil => intro _; rfl
  | cons e pre' ih =>
    intro hpre
    have hrec := ih (fun x hx => hpre x (List.mem_cons_of_mem _ hx))
    have he : eventTerminal e = false := hpre e (List.mem_cons_self _ _)
    cases e with
    | retrieved job dl =>
      simp only [eventTerminal, isTerminalStatus, Bool.or_eq_false_iff,
        decide_eq_false_iff_not] at he
      obtain ⟨⟨⟨hnc, hfa⟩, hca⟩, hex⟩ := he
      have hnf : ¬ (job.status = "failed" ∨ job.status = "cancelled" ∨
          job.status = "expired") := by
        rintro (h | h | h)
        exacts [hfa h, hca h, hex h]
      show monitor_and_process_batch_job
        (PollEvent.retrieved job dl :: (pre' ++ rest)) = _
      rw [monitor_cons_retrieved, if_neg hnc, if_neg hnf, hrec]
      rfl
    | rateLimitError =>
      show MonitorAction.poll :: MonitorAction.sleepSec 60 ::
        monitor_and_process_batch_job (pre' ++ rest) = _
      rw [hrec]
      rfl
    | apiError =>
      show MonitorAction.poll :: MonitorAction.sleepSec 60 ::
        monitor_and_process_batch_job (pre' ++ rest) = _
      rw [hrec]
      rfl
    | unexpectedError =>
      show MonitorAction.poll :: MonitorAction.sleepSec 120 ::
        monitor_and_process_batch_job (pre' ++ rest) = _
      rw [hrec]
      rfl

theorem monitor_terminal_trace (job : BatchJobView) (dl : Option String)
    (post : List PollEvent) (h : isTerminalStatus job.status = true) :
    monitor_and_process_batch_job (PollEvent.retrieved job dl :: post) =
      monitor_and_process_batch_job [PollEvent.retrieved job dl] := by
  have hcases : ((job.status = "completed" ∨ job.status = "failed") ∨
      job.status = "cancelled") ∨ job.status = "expired" := by
    simpa [isTerminalStatus] using h
  rw [monitor_cons_retrieved, monitor_cons_retrieved]
  rcases hcases with ((h1 | h1) | h1) | h1 <;> simp [h1]

theorem countReconcile_le_one (es : List PollEvent) :
    countReconcile (monitor_and_process_batch_job es) ≤ 1 := by
  induction es with
  | nil => simp [monitor_and_process_batch_job, countReconcile]
  | cons e es ih =>
    cases e with
    | retrieved job dl =>
      rw [monitor_cons_retrieved]
      by_cases hc : job.status = "completed"
      · rw [if_pos hc]
        match job.output_file_id, dl with
        | some f, some c => simp [countReconcile, List.countP_cons]
        | some f, Option.none => simp [countReconcile, List.countP_cons]
        | Option.none, some c => simp [countReconcile, List.countP_cons]
        | Option.none, Option.none => simp [countReconcile, List.countP_cons]
      · rw [if_neg hc]
        by_cases hf : job.status = "failed" ∨ job.status = "cancelled" ∨
            job.status = "expired"
        · rw [if_pos hf]
          simp [countReconcile, List.countP_cons]
        · rw [if_neg hf]
          simpa [countReconcile, List.countP_cons] using ih
    | rateLimitError =>
      show countReconcile (MonitorAction.poll :: MonitorAction.sleepSec 60 ::
        monitor_and_process_batch_job es) ≤ 1
      simpa [countReconcile, List.countP_cons] using ih
    | apiError =>
      show countReconcile (MonitorAction.poll :: MonitorAction.sleepSec 60 ::
        monitor_and_process_batch_job es) ≤ 1
      simpa [countReconcile, List.countP_cons] using ih
    | unexpectedError =>
      show countReconcile (MonitorAction.poll :: MonitorAction.sleepSec 120 ::
        monitor_and_process_batch_job es) ≤ 1
      simpa [countReconcile, List.countP_cons] using ih

/-- Claim C3: for every batch job monitored by the poll loop, at most one
terminal outcome is produced: for any stream of poll outcomes, at most one
reconciliation is ever invoked; once a terminal status is observed the
loop's trace is exactly the trace up to that observation (no further polls
for that job); if the first terminal observation is `completed` with a
populated output reference (and the download succeeds), reconciliation is
invoked exactly once; if the first terminal observation is `failed`, the
loop stops without ever invoking reconciliation — hence without producing
a persisted artifact, which only `reconcile` can produce. -/
theorem c3_monitor_terminal_once (pre post : List PollEvent) (job : BatchJobView)
    (dl : Option String) (hpre : ∀ e ∈ pre, eventTerminal e = false) :
    (∀ es : List PollEvent,
      countReconcile (monitor_and_process_batch_job es) ≤ 1) ∧
    (isTerminalStatus job.status = true →
      monitor_and_process_batch_job (pre ++ PollEvent.retrieved job dl :: post) =
      monitor_and_process_batch_job (pre ++ [PollEvent.retrieved job dl])) ∧
    (job.status = "completed" → (∃ f, job.output_file_id = some f) →
      (∃ c, dl = some c) →
      countReconcile (monitor_and_process_batch_job
        (pre ++ PollEvent.retrieved job dl :: post)) = 1) ∧
    (job.status = "failed" →
      monitor_and_process_batch_job (pre ++ PollEvent.retrieved job dl :: post) =
        monitor_and_process_batch_job (pre ++ [PollEvent.retrieved job dl]) ∧
      countReconcile (monitor_and_process_batch_job
        (pre ++ PollEvent.retrieved job dl :: post)) = 0) := by
  have happ := monitor_append_nonterminal (PollEvent.retrieved job dl :: post) pre hpre
  have happ1 := monitor_append_nonterminal [PollEvent.retrieved job dl] pre hpre
  refine ⟨countReconcile_le_one, ?_, ?_, ?_⟩
  · intro hterm
    rw [happ, happ1, monitor_terminal_trace job dl post hterm]
  · intro hc hf hd
    obtain ⟨f, hf⟩ := hf
    obtain ⟨c, hd⟩ := hd
    rw [happ, monitor_terminal_trace job dl post (by simp [isTerminalStatus, hc])]
    rw [countReconcile, List.countP_append]
    have h0 : countReconcile (nonTerminalActs pre) = 0 := countReconcile_nonTerminalActs pre
    rw [countReconcile] at h0
    rw [h0]
    rw [monitor_cons_retrieved, if_pos hc, hf, hd]
    rfl
  · intro hfail
    have hterm : isTerminalStatus job.status = true := by simp [isTerminalStatus, hfail]
    refine ⟨by rw [happ, happ1, monitor_terminal_trace job dl post hterm], ?_⟩
    rw [happ, monitor_terminal_trace job dl post hterm]
    rw [countReconcile, List.countP_append]
    have h0 : countReconcile (nonTerminalActs pre) = 0 := countReconcile_nonTerminalActs pre
    rw [countReconcile] at h0
    rw [h0]
    rw [monitor_cons_retrieved, if_neg (by rw [hfail]; decide),
      if_pos (Or.inl hfail)]
    rfl

/-- Claim C3 witness: one non-terminal poll, then `completed` with an
output file and a successful download, then a trailing event the loop must
ignore. -/
theorem c3_monitor_terminal_once_witness :
    (∀ es : List PollEvent,
      countReconcile (monitor_and_process_batch_job es) ≤ 1) ∧
    (isTerminalStatus (⟨"completed", some "fid"⟩ : BatchJobView).status = true →
      monitor_and_process_batch_job
        ([PollEvent.retrieved ⟨"in_progress", Option.none⟩ Option.none] ++
          PollEvent.retrieved ⟨"completed", some "fid"⟩ (some "content") ::
            [PollEvent.apiError]) =
      monitor_and_process_batch_job
        ([PollEvent.retrieved ⟨"in_progress", Option.none⟩ Option.none] ++
          [PollEvent.retrieved ⟨"completed", some "fid"⟩ (some "content")])) ∧
    ((⟨"completed", some "fid"⟩ : BatchJobView).status = "completed" →
      (∃ f, (⟨"completed", some "fid"⟩ : BatchJobView).output_file_id = some f) →
      (∃ c, (some "content" : Option String) = some c) →
      countReconcile (monitor_and_process_batch_job
        ([PollEvent.retrieved ⟨"in_progress", Option.none⟩ Option.none] ++
          PollEvent.retrieved ⟨"completed", some "fid"⟩ (some "content") ::
            [PollEvent.apiError])) = 1) ∧
    ((⟨"completed", some "fid"⟩ : BatchJobView).status = "failed" →
      monitor_and_process_batch_job
        ([PollEvent.retrieved ⟨"in_progress", Option.none⟩ Option.none] ++
          PollEvent.retrieved ⟨"completed", some "fid"⟩ (some "content") ::
            [PollEvent.apiError]) =
        monitor_and_process_batch_job
          ([PollEvent.retrieved ⟨"in_progress", Option.none⟩ Option.none] ++
            [PollEvent.retrieved ⟨"completed", some "fid"⟩ (some "content")]) ∧
      countReconcile (monitor_and_process_batch_job
        ([PollEvent.retrieved ⟨"in_progress", Option.none⟩ Option.none] ++
          PollEvent.retrieved ⟨"completed", some "fid"⟩ (some "content") ::
            [PollEvent.apiError])) = 0) :=
  c3_monitor_terminal_once
    [PollEvent.retrieved ⟨"in_progress", Option.none⟩ Option.none]
    [PollEvent.apiError] ⟨"completed", some "fid"⟩ (some "content")
    (by intro e he; simp at he; rw [he]; decide)
